import Mathlib

set_option maxHeartbeats 1000000

/-!
Shallow embedding of `pytorch_helpers` (transforms.py and
datasets/segmentation.py) and proofs about it.

Arrays are modelled as a shape together with a total indexing function;
only indices valid for the shape are meaningful.  External collaborators
(numpy, cv2, imgaug) are modelled only to the extent the embedded code
relies on them: random draws are taken from an explicit stream, and the
affine/resize pixel kernels are abstracted while the parameters the code
passes to them (interpolation flag, rotation angle, scale, border sizes)
are tracked exactly.
-/

/-- Python-level exceptions raised by the embedded code. -/
inductive PyErr where
  | valueError
  | indexError
  | loadError
deriving DecidableEq

/-- `ImageMaskTransformMode` from transforms.py: discriminates whether the
current `transform` call operates on the image half or the mask half. -/
inductive ImageMaskTransformMode where
  | Image
  | Mask
deriving DecidableEq

/-- A dense numpy array: a shape together with a total indexing function.
Only indices that are valid for the shape are meaningful. -/
structure NpArr (α : Type) where
  shape : List Nat
  data : List Nat → α

/-- An index is valid for a shape when it has the same length and is
pointwise below the shape. -/
def ValidIdx (idx shape : List Nat) : Prop := List.Forall₂ (· < ·) idx shape

/-- The mask slot of a sample: either the scalar-0 "no mask" sentinel or a
dense array (the only value `isinstance(mask, np.ndarray)` accepts). -/
inductive MaskVal (α : Type) where
  | sentinel
  | dense (m : NpArr α)

/-- A `BaseImageMaskTransformer` instance: the four constructor flags plus
the (stateful, possibly failing) `transform` method.  The state `σ` holds
any per-instance cached parameters together with the random stream. -/
structure Transformer (σ α : Type) where
  p : ℚ
  apply_always : Bool
  apply_image : Bool
  apply_mask : Bool
  transform : σ → NpArr α → ImageMaskTransformMode → Except PyErr (σ × NpArr α)

/-- The body of `BaseImageMaskTransformer.__call__` inside the probability
gate (lines 33-37): transform the image half when `apply_image`, then the
mask half when `apply_mask` and the mask is a dense array. -/
def applyBody {σ α : Type} (t : Transformer σ α) (s : σ) (image : NpArr α)
    (mask : Option (MaskVal α)) :
    Except PyErr (σ × NpArr α × Option (MaskVal α)) := do
  let (s1, image1) ←
    if t.apply_image = true then t.transform s image ImageMaskTransformMode.Image
    else .ok (s, image)
  match t.apply_mask, mask with
  | true, some (MaskVal.dense m) => do
      let (s2, m2) ← t.transform s1 m ImageMaskTransformMode.Mask
      .ok (s2, image1, some (MaskVal.dense m2))
  | _, _ => .ok (s1, image1, mask)

/-- `BaseImageMaskTransformer.__call__` (lines 30-42): `r` is the value of
the single `np.random.rand()` draw; the body runs iff `r >= p` or
`apply_always`.  The Python return value (image alone when no mask was
passed, a pair otherwise) is modelled by threading the `Option` mask. -/
def tcall {σ α : Type} (t : Transformer σ α) (s : σ) (r : ℚ) (image : NpArr α)
    (mask : Option (MaskVal α)) :
    Except PyErr (σ × NpArr α × Option (MaskVal α)) :=
  if t.p ≤ r ∨ t.apply_always = true then applyBody t s image mask
  else .ok (s, image, mask)

/-- `np.flipud`: reverse along axis 0. -/
def flipud {α : Type} (a : NpArr α) : NpArr α :=
  { shape := a.shape
    data := fun idx =>
      match idx with
      | i :: r => a.data ((a.shape.headD 0 - 1 - i) :: r)
      | [] => a.data [] }

/-- `np.fliplr`: reverse along axis 1. -/
def fliplr {α : Type} (a : NpArr α) : NpArr α :=
  { shape := a.shape
    data := fun idx =>
      match idx with
      | i :: j :: r => a.data (i :: (a.shape.getD 1 0 - 1 - j) :: r)
      | r => a.data r }

/-- `RandomVerticalFlip.transform` (lines 46-48): `np.flipud` on either half. -/
def RandomVerticalFlip.transform {α : Type} (s : Unit) (image : NpArr α)
    (_mode : ImageMaskTransformMode) : Except PyErr (Unit × NpArr α) :=
  .ok (s, flipud image)

/-- A `RandomVerticalFlip` instance with the given constructor arguments. -/
def RandomVerticalFlipT {α : Type} (p : ℚ) (aa ai am : Bool) : Transformer Unit α :=
  ⟨p, aa, ai, am, RandomVerticalFlip.transform⟩

/-- `RandomHorizontalFlip.transform` (lines 52-54): `np.fliplr` on either half. -/
def RandomHorizontalFlip.transform {α : Type} (s : Unit) (image : NpArr α)
    (_mode : ImageMaskTransformMode) : Except PyErr (Unit × NpArr α) :=
  .ok (s, fliplr image)

/-- A `RandomHorizontalFlip` instance with the given constructor arguments. -/
def RandomHorizontalFlipT {α : Type} (p : ℚ) (aa ai am : Bool) : Transformer Unit α :=
  ⟨p, aa, ai, am, RandomHorizontalFlip.transform⟩

/-- A concrete 2x3 array used by witnesses. -/
def arr23 : NpArr Nat := ⟨[2, 3], fun idx => idx.sum⟩

/-- A concrete 2x2 rational array used by witnesses and counterexamples. -/
def arrC4 : NpArr ℚ := ⟨[2, 2], fun idx => idx.sum⟩

/-- Python list indexing `l[i]` for an int `i`: negative indices count
from the end; out-of-range raises IndexError. -/
def pyGet {α : Type} (l : List α) (i : Int) : Except PyErr α :=
  let j := if i < 0 then i + l.length else i
  if h : 0 ≤ j ∧ j.toNat < l.length then .ok (l.get ⟨j.toNat, h.2⟩)
  else .error .indexError

/-- A `BaseImageSegmentationDataset` (segmentation.py lines 9-19): image
references, optional parallel mask references, and the three optional
transform stages. -/
structure SegDataset (ι α : Type) where
  images : List ι
  masks : Option (List ι)
  transform : Option (NpArr α → MaskVal α → Except PyErr (NpArr α × MaskVal α))
  image_transform : Option (NpArr α → NpArr α)
  mask_transform : Option (NpArr α → NpArr α)

/-- `BaseImageSegmentationDataset._load_image_and_mask` (lines 21-31):
index the image list, load the image, and when a mask list is configured
index and load the mask in grayscale mode, else use the scalar-0 sentinel.
The loader collaborator `load_image` lives in the repo module
`pytorch_helpers.helpers`, which is not in scope here; it is passed as the
`load` parameter (an arbitrary loader that returns a dense array or fails,
per the spec's loader contract; its grayscale keyword is the Bool). -/
def loadImageAndMask {ι α : Type} (load : ι → Bool → Except PyErr (NpArr α))
    (ds : SegDataset ι α) (index : Int) : Except PyErr (NpArr α × MaskVal α) := do
  let image_filename ← pyGet ds.images index
  let image ← load image_filename false
  match ds.masks with
  | some masks => do
      let mask_filename ← pyGet masks index
      let mask ← load mask_filename true
      .ok (image, MaskVal.dense mask)
  | none => .ok (image, MaskVal.sentinel)

/-- `BaseImageSegmentationDataset._apply_transforms` (lines 33-43): the
paired transform, then the image-only stage, then the mask-only stage —
the latter only when the mask is a dense array
(`isinstance(mask, np.ndarray)`). -/
def applyTransformsD {ι α : Type} (ds : SegDataset ι α) (image : NpArr α)
    (mask : MaskVal α) : Except PyErr (NpArr α × MaskVal α) := do
  let (image1, mask1) ←
    match ds.transform with
    | some f => f image mask
    | none => .ok (image, mask)
  let image2 :=
    match ds.image_transform with
    | some f => f image1
    | none => image1
  let mask2 :=
    match ds.mask_transform, mask1 with
    | some f, MaskVal.dense m => MaskVal.dense (f m)
    | _, m => m
  .ok (image2, mask2)

/-- `BaseImageSegmentationDataset.__getitem__` (lines 45-49). -/
def getItem {ι α : Type} (load : ι → Bool → Except PyErr (NpArr α))
    (ds : SegDataset ι α) (index : Int) : Except PyErr (NpArr α × MaskVal α) := do
  let (image, mask) ← loadImageAndMask load ds index
  applyTransformsD ds image mask

/-- Using a `Transformer` (with its state and random draw) as the
dataset's paired transform stage: the dataset always passes a mask value
(the sentinel 0 or a dense array), so `__call__` returns a pair. -/
def transformerCallPair {σ α : Type} (t : Transformer σ α) (s : σ) (r : ℚ) :
    NpArr α → MaskVal α → Except PyErr (NpArr α × MaskVal α) :=
  fun image mask =>
    (tcall t s r image (some mask)).map fun x => (x.2.1, x.2.2.getD mask)

/-- The two cv2 interpolation flags the embedded code selects between. -/
inductive Interp where
  | INTER_LINEAR
  | INTER_NEAREST
deriving DecidableEq

/-- Model of the external collaborator `cv2.resize` with
`dsize = (size, size)`: the output has spatial dimensions exactly
`size x size` (remaining axes unchanged); pixel values are modelled by
nearest-index source sampling — the theorems rely only on the output
shape and on which interpolation flag the embedded code passes. -/
def cv2resize {α : Type} (interp : Interp) (size : Nat) (a : NpArr α) : NpArr α :=
  match interp with
  | _ =>
    { shape := size :: size :: a.shape.drop 2
      data := fun idx =>
        match idx with
        | i :: j :: r =>
            a.data ((i * a.shape.getD 0 0 / size) :: (j * a.shape.getD 1 0 / size) :: r)
        | r => a.data r }

/-- `Resize.transform` (lines 75-83): linear interpolation on the image
half, nearest-neighbor on the mask half, then `cv2.resize` to
`(size, size)`. -/
def Resize.transform {α : Type} (size : Nat) (s : Unit) (image : NpArr α)
    (mode : ImageMaskTransformMode) : Except PyErr (Unit × NpArr α) :=
  let interpolation :=
    if mode = ImageMaskTransformMode.Image then Interp.INTER_LINEAR else Interp.INTER_NEAREST
  .ok (s, cv2resize interpolation size image)

/-- A `Resize` instance (lines 67-73): the constructor stores `size` and
forces `apply_always = True`. -/
def ResizeT {α : Type} (size : Nat) (p : ℚ) (ai am : Bool) : Transformer Unit α :=
  ⟨p, true, ai, am, Resize.transform size⟩

/-- The per-axis crops computed by `Squarify.transform` (lines 254-268):
center-crop each of the first two sides down to the smaller one, `(0, 0)`
for every remaining axis. -/
def squarifyCrops (shape : List Nat) : List (Nat × Nat) :=
  let target_size := min (shape.getD 0 0) (shape.getD 1 0)
  let cropFor : Nat → Nat × Nat := fun image_side_size =>
    if image_side_size ≤ target_size then (0, 0)
    else
      let crop_total := image_side_size - target_size
      let crop_before := crop_total / 2
      (crop_before, image_side_size - target_size - crop_before)
  [cropFor (shape.getD 0 0), cropFor (shape.getD 1 0)]
    ++ List.replicate (shape.length - 2) (0, 0)

/-- `Squarify.transform` (lines 253-273): slice axis `i` to
`[before_i, shape_i - after_i)`. -/
def Squarify.transform {α : Type} (a : NpArr α) : NpArr α :=
  let crops := squarifyCrops a.shape
  { shape := (a.shape.zip crops).map fun sc => sc.1 - sc.2.2 - sc.2.1
    data := fun idx => a.data (List.zipWith (fun i c => i + c.1) idx crops) }

/-- Broadcast lookup of a channel vector reshaped to `(1, 1, -1)` at
channel `c`: numpy stretches a length-1 vector across all channels. -/
def bcast (v : List ℚ) (c : Nat) : ℚ :=
  if v.length = 1 then v.headD 0 else v.getD c 0

/-- A `Normalize` instance (lines 287-293): the channel mean/std vectors
and the divide flag. -/
structure NormalizeT where
  mean : List ℚ
  std : List ℚ
  divide : Bool

/-- `Normalize.__call__` (lines 295-302) on an `(H, W, C)` array:
optionally divide by 255, then subtract the broadcast mean and divide by
the broadcast std (float32 arithmetic modelled as exact rational
arithmetic; the channel is the third index component). -/
def Normalize.call (n : NormalizeT) (a : NpArr ℚ) : NpArr ℚ :=
  let d : NpArr ℚ :=
    if n.divide then { shape := a.shape, data := fun idx => a.data idx / 255 } else a
  { shape := d.shape
    data := fun idx =>
      (d.data idx - bcast n.mean (idx.getD 2 0)) / bcast n.std (idx.getD 2 0) }

/-- `np.transpose(data, (2, 0, 1))` on an `(H, W, C)` array. -/
def npTranspose201 {α : Type} (a : NpArr α) : NpArr α :=
  { shape :=
      match a.shape with
      | [h, w, c] => [c, h, w]
      | other => other
    data := fun idx =>
      match idx with
      | c :: h :: w :: r => a.data (h :: w :: c :: r)
      | r => a.data r }

/-- A `ToTensor` instance (lines 305-312). -/
structure ToTensorT where
  divide : Bool
  transpose : Bool
  contiguous : Bool
  to_torch : Bool

/-- `ToTensor.__call__` (lines 314-326): optional `(2, 0, 1)` transpose,
optional contiguous materialization (value-preserving, modelled as the
identity), optional /255 scaling, optional conversion to a torch tensor
(an external value-preserving wrapper, modelled as the identity). -/
def ToTensor.call (t : ToTensorT) (a : NpArr ℚ) : NpArr ℚ :=
  let a1 := if t.transpose then npTranspose201 a else a
  let a2 := if t.divide then { shape := a1.shape, data := fun idx => a1.data idx / 255 } else a1
  a2

/-- Single-reflection index mapping for `cv2.BORDER_REFLECT` (edge pixel
included): pad positions mirror the source about each border.  Pads
larger than the source side (multiple reflections) are outside the
model. -/
def reflectIdx (len pad : Nat) (i : Nat) : Nat :=
  if i < pad then pad - 1 - i
  else if i < pad + len then i - pad
  else 2 * len + pad - 1 - i

/-- Model of the external collaborator
`cv2.copyMakeBorder(img, top, bottom, left, right, cv2.BORDER_REFLECT)`. -/
def copyMakeBorderReflect {α : Type} (top bottom left right : Nat) (a : NpArr α) : NpArr α :=
  { shape := (top + a.shape.getD 0 0 + bottom) :: (left + a.shape.getD 1 0 + right)
      :: a.shape.drop 2
    data := fun idx =>
      match idx with
      | i :: j :: r =>
          a.data (reflectIdx (a.shape.getD 0 0) top i
            :: reflectIdx (a.shape.getD 1 0) left j :: r)
      | r => a.data r }

/-- `MakeBorder.__init__` border normalization (lines 230-231): a
non-tuple border size `s` becomes the 4-tuple `(s, s, s, s)`. -/
def normalizeBorderSize (border_size : Nat ⊕ (Nat × Nat × Nat × Nat)) :
    Nat × Nat × Nat × Nat :=
  match border_size with
  | .inl s => (s, s, s, s)
  | .inr t => t

/-- `MakeBorder.transform` (lines 238-244): reflected border padding with
the four stored per-side sizes (top, bottom, left, right). -/
def MakeBorder.transform {α : Type} (border_size : Nat × Nat × Nat × Nat) (s : Unit)
    (image : NpArr α) (_mode : ImageMaskTransformMode) : Except PyErr (Unit × NpArr α) :=
  .ok (s, copyMakeBorderReflect border_size.1 border_size.2.1 border_size.2.2.1
    border_size.2.2.2 image)

/-- A `MakeBorder` instance (lines 226-236): normalizes the border size
and forces `apply_always = True` and `apply_mask = False`. -/
def MakeBorderT {α : Type} (border_size : Nat ⊕ (Nat × Nat × Nat × Nat)) (p : ℚ)
    (ai : Bool) : Transformer Unit α :=
  ⟨p, true, ai, false, MakeBorder.transform (normalizeBorderSize border_size)⟩

/-- A concrete 100x60x3 rational array used by witnesses. -/
def arr100 : NpArr ℚ := ⟨[100, 60, 3], fun idx => idx.sum⟩

/-- A one-image dataset with no masks and no transform stages. -/
def ds1 : SegDataset Nat ℚ := ⟨[0], none, none, none, none⟩

/-- A loader that always succeeds with `arrC4`. -/
def loadConst : Nat → Bool → Except PyErr (NpArr ℚ) := fun _ _ => .ok arrC4

theorem tcall_applies {σ α : Type} (t : Transformer σ α) (s : σ) (r : ℚ)
    (image : NpArr α) (mask : Option (MaskVal α))
    (hg : t.p ≤ r ∨ t.apply_always = true) :
    tcall t s r image mask = applyBody t s image mask := if_pos hg

theorem applyBody_dense {σ α : Type} (t : Transformer σ α) (s : σ) (image m : NpArr α)
    (hai : t.apply_image = true) (ham : t.apply_mask = true)
    {s1 s2 : σ} {image1 m2 : NpArr α}
    (h1 : t.transform s image ImageMaskTransformMode.Image = .ok (s1, image1))
    (h2 : t.transform s1 m ImageMaskTransformMode.Mask = .ok (s2, m2)) :
    applyBody t s image (some (MaskVal.dense m))
      = .ok (s2, image1, some (MaskVal.dense m2)) := by
  simp [applyBody, hai, ham, h1, h2, bind, Except.bind]

/-- Numpy basic slicing `a[h0:h1, w0:w1]` with nonnegative bounds: each
spatial extent is clamped to the axis length, and the data is offset. -/
def sliceHW {α : Type} (h0 h1 w0 w1 : Nat) (a : NpArr α) : NpArr α :=
  { shape :=
      match a.shape with
      | H :: W :: rest => (min h1 H - min h0 H) :: (min w1 W - min w0 W) :: rest
      | other => other
    data := fun idx =>
      match idx with
      | i :: j :: r => a.data ((i + h0) :: (j + w0) :: r)
      | r => a.data r }

/-- `np.random.randint(low, high)`: raises ValueError when `high <= low`,
otherwise consumes one draw from the stream and returns a value in
`[low, high)` (the draw reduced modulo the range size). -/
def npRandint (low high : Int) (rng : List Nat) : Except PyErr (Int × List Nat) :=
  if high ≤ low then .error .valueError
  else .ok (low + (rng.headD 0 : Int) % (high - low), rng.tail)

/-- `np.random.choice(l)` on a nonempty list of ints: consumes one draw and
picks the element it selects. -/
def npChoice (l : List Int) (rng : List Nat) : Int × List Nat :=
  (l.getD (rng.headD 0 % l.length) 0, rng.tail)

/-- `np.random.uniform(lo, hi)`: consumes one draw `u` (a rational standing
for the unit-interval sample) and returns `lo + (hi - lo) * u`. -/
def npUniform (lo hi : ℚ) (rng : List ℚ) : ℚ × List ℚ :=
  (lo + (hi - lo) * rng.headD 0, rng.tail)

/-- The mutable fields of a `SamplePatch` instance: the two cached patch
coordinates (`_patch_coordinate_h/_w`, initialised to 0) plus the random
stream consumed by `np.random.randint`. -/
structure SamplePatchState where
  coordH : Int
  coordW : Int
  rng : List Nat
deriving DecidableEq

/-- `SamplePatch.transform` (lines 107-127): on the image half, sample the
patch offsets from `[0, H - patch) x [0, W - patch)` (ValueError when a
range is empty) and cache them; on the mask half, reuse the cached offsets;
both halves then slice out the `patch_size` window at the cached offsets. -/
def SamplePatch.transform {α : Type} (patch_size : Nat) (s : SamplePatchState)
    (image : NpArr α) (mode : ImageMaskTransformMode) :
    Except PyErr (SamplePatchState × NpArr α) :=
  match mode with
  | .Image => do
      let image_height : Int := image.shape.getD 0 0
      let image_width : Int := image.shape.getD 1 0
      let max_height := image_height - patch_size
      let max_width := image_width - patch_size
      let (h, rng1) ← npRandint 0 max_height s.rng
      let (w, rng2) ← npRandint 0 max_width rng1
      let s2 : SamplePatchState := ⟨h, w, rng2⟩
      .ok (s2, sliceHW h.toNat (h.toNat + patch_size) w.toNat (w.toNat + patch_size) image)
  | .Mask =>
      .ok (s, sliceHW s.coordH.toNat (s.coordH.toNat + patch_size)
        s.coordW.toNat (s.coordW.toNat + patch_size) image)

/-- A `SamplePatch` instance (lines 96-105): the constructor stores
`patch_size` and forces `apply_always = True`. -/
def SamplePatchT {α : Type} (patch_size : Nat) (p : ℚ) (ai am : Bool) :
    Transformer SamplePatchState α :=
  ⟨p, true, ai, am, SamplePatch.transform patch_size⟩

/-- The mutable fields of a `Rotate` or `Rotate90n` instance: the
`_augmentor.rotate` parameter (a `Deterministic` angle) plus the random
stream. -/
structure RotState where
  rotate : Int
  rng : List Nat
deriving DecidableEq

/-- `Rotate.transform` (lines 176-184): on the image half, sample an angle
with `np.random.randint(from_val, to_val)` and store it in the augmentor;
both halves then apply the affine augmentor at its current angle.  The
pixel kernel of `iaa.Affine.augment_image` is the abstract `affine`. -/
def Rotate.transform {α : Type} (affine : Int → NpArr α → NpArr α)
    (from_val to_val : Int) (s : RotState) (image : NpArr α)
    (mode : ImageMaskTransformMode) : Except PyErr (RotState × NpArr α) :=
  match mode with
  | .Image => do
      let (angle, rng1) ← npRandint from_val to_val s.rng
      .ok (⟨angle, rng1⟩, affine angle image)
  | .Mask => .ok (s, affine s.rotate image)

/-- A `Rotate` instance (lines 166-174) with the given constructor
arguments (defaults: from_val = -20, to_val = 20, p = 0.5). -/
def RotateT {α : Type} (affine : Int → NpArr α → NpArr α)
    (from_val to_val : Int) (p : ℚ) (aa ai am : Bool) : Transformer RotState α :=
  ⟨p, aa, ai, am, Rotate.transform affine from_val to_val⟩

/-- `Rotate90n.transform` (lines 194-202): on the image half, choose an
angle uniformly from `[0, 90, 180, 270]` and store it in the augmentor;
both halves then apply the affine augmentor at its current angle. -/
def Rotate90n.transform {α : Type} (affine : Int → NpArr α → NpArr α)
    (s : RotState) (image : NpArr α) (mode : ImageMaskTransformMode) :
    Except PyErr (RotState × NpArr α) :=
  match mode with
  | .Image =>
      let (angle, rng1) := npChoice [0, 90, 180, 270] s.rng
      .ok (⟨angle, rng1⟩, affine angle image)
  | .Mask => .ok (s, affine s.rotate image)

/-- A `Rotate90n` instance (lines 187-192). -/
def Rotate90nT {α : Type} (affine : Int → NpArr α → NpArr α)
    (p : ℚ) (aa ai am : Bool) : Transformer RotState α :=
  ⟨p, aa, ai, am, Rotate90n.transform affine⟩

/-- The mutable fields of a `Scale` instance: the `_augmentor.scale`
parameter plus the random stream consumed by `np.random.uniform`. -/
structure ScaleState where
  scale : ℚ
  rng : List ℚ
deriving DecidableEq

/-- `Scale.transform` (lines 215-223): on the image half, sample a scale
with `np.random.uniform(from_val, to_val)` and store it in the augmentor;
both halves then apply the affine augmentor at its current scale. -/
def Scale.transform {α : Type} (affineScale : ℚ → NpArr α → NpArr α)
    (from_val to_val : ℚ) (s : ScaleState) (image : NpArr α)
    (mode : ImageMaskTransformMode) : Except PyErr (ScaleState × NpArr α) :=
  match mode with
  | .Image =>
      let (sc, rng1) := npUniform from_val to_val s.rng
      .ok (⟨sc, rng1⟩, affineScale sc image)
  | .Mask => .ok (s, affineScale s.scale image)

/-- A `Scale` instance (lines 205-213). -/
def ScaleT {α : Type} (affineScale : ℚ → NpArr α → NpArr α)
    (from_val to_val : ℚ) (p : ℚ) (aa ai am : Bool) : Transformer ScaleState α :=
  ⟨p, aa, ai, am, Scale.transform affineScale from_val to_val⟩

theorem tcall_sentinel {σ α : Type} (t : Transformer σ α) (s : σ) (r : ℚ) (image : NpArr α) :
    tcall t s r image (some MaskVal.sentinel)
      = (tcall t s r image none).map fun x => (x.1, x.2.1, some MaskVal.sentinel) := by
  unfold tcall
  by_cases hc : t.p ≤ r ∨ t.apply_always = true
  · rw [if_pos hc, if_pos hc]
    unfold applyBody
    cases hai : t.apply_image with
    | false => cases ham : t.apply_mask <;> simp [hai, ham, bind, Except.bind, Except.map]
    | true =>
      cases htr : t.transform s image ImageMaskTransformMode.Image with
      | error e => simp [hai, htr, bind, Except.bind, Except.map]
      | ok v =>
        obtain ⟨s1, image1⟩ := v
        cases ham : t.apply_mask <;> simp [hai, htr, ham, bind, Except.bind, Except.map]
  · rw [if_neg hc, if_neg hc]
    simp [Except.map]

theorem transformerCallPair_sentinel {σ α : Type} (t : Transformer σ α) (s : σ) (r : ℚ)
    (image : NpArr α) :
    transformerCallPair t s r image MaskVal.sentinel
      = (tcall t s r image none).map fun x => (x.2.1, MaskVal.sentinel) := by
  unfold transformerCallPair
  rw [tcall_sentinel]
  cases tcall t s r image none <;> simp [Except.map]

theorem applyTransformsD_sentinel {σ ι α : Type} (images : List ι) (t : Transformer σ α)
    (s : σ) (r : ℚ) (itf mtf : Option (NpArr α → NpArr α)) (image : NpArr α) :
    applyTransformsD
        (⟨images, none, some (transformerCallPair t s r), itf, mtf⟩ : SegDataset ι α)
        image MaskVal.sentinel
      = (tcall t s r image none).map fun x =>
          ((match itf with | some g => g x.2.1 | none => x.2.1), MaskVal.sentinel) := by
  unfold applyTransformsD
  cases htc : tcall t s r image none with
  | error e =>
    simp [transformerCallPair_sentinel, htc, bind, Except.bind, Except.map]
  | ok v =>
    cases mtf <;> cases itf <;>
      simp [transformerCallPair_sentinel, htc, bind, Except.bind, Except.map]

theorem samplePatch_image_half {α : Type} (patch_size : Nat)
    (s : SamplePatchState) (image : NpArr α)
    (hH : patch_size < image.shape.getD 0 0) (hW : patch_size < image.shape.getD 1 0) :
    SamplePatch.transform patch_size s image ImageMaskTransformMode.Image =
      .ok (⟨(s.rng.headD 0 : Int) % ((image.shape.getD 0 0 : Int) - patch_size),
            (s.rng.tail.headD 0 : Int) % ((image.shape.getD 1 0 : Int) - patch_size),
            s.rng.tail.tail⟩,
        sliceHW ((s.rng.headD 0 : Int) % ((image.shape.getD 0 0 : Int) - patch_size)).toNat
          (((s.rng.headD 0 : Int) % ((image.shape.getD 0 0 : Int) - patch_size)).toNat + patch_size)
          ((s.rng.tail.headD 0 : Int) % ((image.shape.getD 1 0 : Int) - patch_size)).toNat
          (((s.rng.tail.headD 0 : Int) % ((image.shape.getD 1 0 : Int) - patch_size)).toNat + patch_size)
          image) := by
  have h1 : ¬((image.shape.getD 0 0 : Int) - (patch_size : Int) ≤ 0) := by omega
  have h2 : ¬((image.shape.getD 1 0 : Int) - (patch_size : Int) ≤ 0) := by omega
  have e1 : npRandint 0 ((image.shape.getD 0 0 : Int) - (patch_size : Int)) s.rng
      = .ok ((s.rng.headD 0 : Int) % ((image.shape.getD 0 0 : Int) - patch_size), s.rng.tail) := by
    unfold npRandint
    rw [if_neg h1]
    simp
  have e2 : npRandint 0 ((image.shape.getD 1 0 : Int) - (patch_size : Int)) s.rng.tail
      = .ok ((s.rng.tail.headD 0 : Int) % ((image.shape.getD 1 0 : Int) - patch_size),
          s.rng.tail.tail) := by
    unfold npRandint
    rw [if_neg h2]
    simp
  simp only [SamplePatch.transform, e1, e2, bind, Except.bind]

theorem rotate_image_half {α : Type} (affine : Int → NpArr α → NpArr α)
    (from_val to_val : Int) (s : RotState) (image : NpArr α) (hft : from_val < to_val) :
    Rotate.transform affine from_val to_val s image ImageMaskTransformMode.Image =
      .ok (⟨from_val + (s.rng.headD 0 : Int) % (to_val - from_val), s.rng.tail⟩,
        affine (from_val + (s.rng.headD 0 : Int) % (to_val - from_val)) image) := by
  have h1 : ¬(to_val ≤ from_val) := by omega
  simp [Rotate.transform, npRandint, h1, bind, Except.bind]

/-- Claim C2: for each geometric transform with shared parameters
(SamplePatch, Rotate, Rotate90n, Scale), a paired call with a dense mask
(gate passing, default `apply_image`/`apply_mask`) samples the random
parameter only during the image-half call, caches it in the instance state
(which records that the mask half consumed no further random draws), and
transforms the mask with exactly the cached parameter, so image and mask
are transformed with the same parameter. -/
theorem C2_shared_geometry :
    (∀ (α : Type) (patch_size : Nat) (p r : ℚ) (s : SamplePatchState) (image m : NpArr α),
      patch_size < image.shape.getD 0 0 → patch_size < image.shape.getD 1 0 →
      ∃ h w : Int, 0 ≤ h ∧ h < (image.shape.getD 0 0 : Int) - patch_size
        ∧ 0 ≤ w ∧ w < (image.shape.getD 1 0 : Int) - patch_size
        ∧ tcall (SamplePatchT patch_size p true true) s r image (some (MaskVal.dense m))
          = .ok (⟨h, w, s.rng.tail.tail⟩,
              sliceHW h.toNat (h.toNat + patch_size) w.toNat (w.toNat + patch_size) image,
              some (MaskVal.dense
                (sliceHW h.toNat (h.toNat + patch_size) w.toNat (w.toNat + patch_size) m))))
    ∧ (∀ (α : Type) (affine : Int → NpArr α → NpArr α) (from_val to_val : Int) (p r : ℚ)
        (s : RotState) (image m : NpArr α), from_val < to_val → p ≤ r →
      ∃ angle : Int, from_val ≤ angle ∧ angle < to_val
        ∧ tcall (RotateT affine from_val to_val p false true true) s r image
            (some (MaskVal.dense m))
          = .ok (⟨angle, s.rng.tail⟩, affine angle image, some (MaskVal.dense (affine angle m))))
    ∧ (∀ (α : Type) (affine : Int → NpArr α → NpArr α) (p r : ℚ)
        (s : RotState) (image m : NpArr α), p ≤ r →
      ∃ angle : Int, angle ∈ ([0, 90, 180, 270] : List Int)
        ∧ tcall (Rotate90nT affine p false true true) s r image (some (MaskVal.dense m))
          = .ok (⟨angle, s.rng.tail⟩, affine angle image, some (MaskVal.dense (affine angle m))))
    ∧ (∀ (α : Type) (affineScale : ℚ → NpArr α → NpArr α) (lo hi p r : ℚ)
        (s : ScaleState) (image m : NpArr α), p ≤ r →
      ∃ sc : ℚ,
        tcall (ScaleT affineScale lo hi p false true true) s r image (some (MaskVal.dense m))
          = .ok (⟨sc, s.rng.tail⟩, affineScale sc image,
              some (MaskVal.dense (affineScale sc m)))) := by
  refine ⟨?_, ?_, ?_, ?_⟩
  · intro α patch_size p r s image m hH hW
    refine ⟨(s.rng.headD 0 : Int) % ((image.shape.getD 0 0 : Int) - patch_size),
      (s.rng.tail.headD 0 : Int) % ((image.shape.getD 1 0 : Int) - patch_size),
      Int.emod_nonneg _ (by omega), Int.emod_lt_of_pos _ (by omega),
      Int.emod_nonneg _ (by omega), Int.emod_lt_of_pos _ (by omega), ?_⟩
    rw [tcall_applies _ _ _ _ _ (Or.inr rfl)]
    exact applyBody_dense _ _ _ _ rfl rfl (samplePatch_image_half patch_size s image hH hW) rfl
  · intro α affine from_val to_val p r s image m hft hpr
    refine ⟨from_val + (s.rng.headD 0 : Int) % (to_val - from_val),
      le_add_of_nonneg_right (Int.emod_nonneg _ (by omega)), ?_, ?_⟩
    · have := Int.emod_lt_of_pos (s.rng.headD 0 : Int) (show (0:Int) < to_val - from_val by omega)
      omega
    · rw [tcall_applies _ _ _ _ _ (Or.inl hpr)]
      exact applyBody_dense _ _ _ _ rfl rfl (rotate_image_half affine from_val to_val s image hft) rfl
  · intro α affine p r s image m hpr
    have hk : s.rng.headD 0 % 4 < 4 := Nat.mod_lt _ (by norm_num)
    have hmem : ∀ k < 4, ([0, 90, 180, 270] : List Int).getD k 0 ∈ ([0, 90, 180, 270] : List Int) := by
      decide
    refine ⟨([0, 90, 180, 270] : List Int).getD (s.rng.headD 0 % 4) 0, hmem _ hk, ?_⟩
    rw [tcall_applies _ _ _ _ _ (Or.inl hpr)]
    exact applyBody_dense _ _ _ _ rfl rfl rfl rfl
  · intro α affineScale lo hi p r s image m hpr
    refine ⟨lo + (hi - lo) * s.rng.headD 0, ?_⟩
    rw [tcall_applies _ _ _ _ _ (Or.inl hpr)]
    exact applyBody_dense _ _ _ _ rfl rfl rfl rfl

/-- Witness for C2 at concrete transforms, arrays and random streams. -/
theorem C2_shared_geometry_witness :
    (∃ h w : Int, 0 ≤ h ∧ h < (arrC4.shape.getD 0 0 : Int) - (1 : Nat)
      ∧ 0 ≤ w ∧ w < (arrC4.shape.getD 1 0 : Int) - (1 : Nat)
      ∧ tcall (SamplePatchT 1 0 true true) ⟨0, 0, []⟩ 0 arrC4 (some (MaskVal.dense arrC4))
        = .ok (⟨h, w, []⟩, sliceHW h.toNat (h.toNat + 1) w.toNat (w.toNat + 1) arrC4,
            some (MaskVal.dense (sliceHW h.toNat (h.toNat + 1) w.toNat (w.toNat + 1) arrC4))))
    ∧ (∃ angle : Int, 0 ≤ angle ∧ angle < 1
      ∧ tcall (RotateT (fun _ x => x) 0 1 0 false true true) ⟨0, []⟩ 0 arrC4
          (some (MaskVal.dense arrC4))
        = .ok (⟨angle, []⟩, arrC4, some (MaskVal.dense arrC4)))
    ∧ (∃ angle : Int, angle ∈ ([0, 90, 180, 270] : List Int)
      ∧ tcall (Rotate90nT (fun _ x => x) 0 false true true) ⟨0, []⟩ 0 arrC4
          (some (MaskVal.dense arrC4))
        = .ok (⟨angle, []⟩, arrC4, some (MaskVal.dense arrC4)))
    ∧ (∃ sc : ℚ,
      tcall (ScaleT (fun _ x => x) 0 1 0 false true true) ⟨0, []⟩ 0 arrC4
          (some (MaskVal.dense arrC4))
        = .ok (⟨sc, []⟩, arrC4, some (MaskVal.dense arrC4))) :=
  ⟨C2_shared_geometry.1 ℚ 1 0 0 ⟨0, 0, []⟩ arrC4 arrC4 (by decide) (by decide),
    C2_shared_geometry.2.1 ℚ (fun _ x => x) 0 1 0 0 ⟨0, []⟩ arrC4 arrC4 (by decide) le_rfl,
    C2_shared_geometry.2.2.1 ℚ (fun _ x => x) 0 0 ⟨0, []⟩ arrC4 arrC4 le_rfl,
    C2_shared_geometry.2.2.2 ℚ (fun _ x => x) 0 1 0 0 ⟨0, []⟩ arrC4 arrC4 le_rfl⟩

/-- Claim C3: when the mask is the "no mask" sentinel, a paired
transformer's mask-half call is skipped even when `apply_mask` is true
(the call behaves exactly as with no mask, returning the sentinel
unchanged), and a dataset `get(index)` call whose mask is the sentinel
never invokes the mask-only post-transform (the result is independent of
it) and returns the sentinel unchanged. -/
theorem C3_sentinel_path :
    (∀ (σ α : Type) (t : Transformer σ α) (s : σ) (r : ℚ) (image : NpArr α),
      tcall t s r image (some MaskVal.sentinel)
        = (tcall t s r image none).map fun x => (x.1, x.2.1, some MaskVal.sentinel))
    ∧ (∀ (σ ι α : Type) (load : ι → Bool → Except PyErr (NpArr α)) (images : List ι)
        (t : Transformer σ α) (s : σ) (r : ℚ) (itf : Option (NpArr α → NpArr α))
        (f : NpArr α → NpArr α) (i : Int),
      getItem load
          (⟨images, none, some (transformerCallPair t s r), itf, some f⟩ : SegDataset ι α) i
        = getItem load
          (⟨images, none, some (transformerCallPair t s r), itf, none⟩ : SegDataset ι α) i
      ∧ ∀ out, getItem load
          (⟨images, none, some (transformerCallPair t s r), itf, some f⟩ : SegDataset ι α) i
            = .ok out → out.2 = MaskVal.sentinel) := by
  refine ⟨fun σ α t s r image => tcall_sentinel t s r image, ?_⟩
  intro σ ι α load images t s r itf f i
  cases hp : pyGet images i with
  | error e =>
    refine ⟨by simp [getItem, loadImageAndMask, hp, bind, Except.bind], fun out hout => ?_⟩
    simp [getItem, loadImageAndMask, hp, bind, Except.bind] at hout
  | ok ref =>
    cases hl : load ref false with
    | error e =>
      refine ⟨by simp [getItem, loadImageAndMask, hp, hl, bind, Except.bind],
        fun out hout => ?_⟩
      simp [getItem, loadImageAndMask, hp, hl, bind, Except.bind] at hout
    | ok image =>
      have e1 : ∀ mtf : Option (NpArr α → NpArr α),
          getItem load
              (⟨images, none, some (transformerCallPair t s r), itf, mtf⟩ : SegDataset ι α) i
            = applyTransformsD
              (⟨images, none, some (transformerCallPair t s r), itf, mtf⟩ : SegDataset ι α)
              image MaskVal.sentinel := by
        intro mtf
        simp [getItem, loadImageAndMask, hp, hl, bind, Except.bind]
      refine ⟨?_, fun out hout => ?_⟩
      · rw [e1 (some f), e1 none, applyTransformsD_sentinel, applyTransformsD_sentinel]
      · rw [e1 (some f), applyTransformsD_sentinel] at hout
        cases htc : tcall t s r image none with
        | error e => rw [htc] at hout; simp [Except.map] at hout
        | ok v =>
          rw [htc] at hout
          simp only [Except.map] at hout
          cases hout
          rfl

/-- Witness for C3 at a concrete flip transformer, dataset and index. -/
theorem C3_sentinel_path_witness :
    tcall (RandomVerticalFlipT (α := ℚ) 0 false true true) () 1 arrC4
        (some MaskVal.sentinel)
      = (tcall (RandomVerticalFlipT (α := ℚ) 0 false true true) () 1 arrC4 none).map
          (fun x => (x.1, x.2.1, some MaskVal.sentinel))
    ∧ getItem loadConst
        (⟨[0], none,
          some (transformerCallPair (RandomVerticalFlipT 0 false true true) () 1), none,
          some (fun x => x)⟩ : SegDataset Nat ℚ) 0
      = getItem loadConst
        (⟨[0], none,
          some (transformerCallPair (RandomVerticalFlipT 0 false true true) () 1), none,
          none⟩ : SegDataset Nat ℚ) 0
    ∧ ((flipud arrC4, MaskVal.sentinel) : NpArr ℚ × MaskVal ℚ).2 = MaskVal.sentinel :=
  ⟨C3_sentinel_path.1 Unit ℚ (RandomVerticalFlipT 0 false true true) () 1 arrC4,
    (C3_sentinel_path.2 Unit Nat ℚ loadConst [0] (RandomVerticalFlipT 0 false true true)
      () 1 none (fun x => x) 0).1,
    (C3_sentinel_path.2 Unit Nat ℚ loadConst [0] (RandomVerticalFlipT 0 false true true)
      () 1 none (fun x => x) 0).2 (flipud arrC4, MaskVal.sentinel) (by rfl)⟩

theorem pyGet_error_iff {α : Type} (l : List α) (i : Int) :
    pyGet l i = .error PyErr.indexError
      ↔ (i < -(l.length : Int) ∨ (l.length : Int) ≤ i) := by
  unfold pyGet
  by_cases hneg : i < 0
  · simp only [if_pos hneg]
    by_cases hin : 0 ≤ i + (l.length : Int) ∧ (i + (l.length : Int)).toNat < l.length
    · rw [dif_pos hin]
      simp only [reduceCtorEq, false_iff]
      omega
    · rw [dif_neg hin]
      simp only [true_iff]
      omega
  · simp only [if_neg hneg]
    by_cases hin : 0 ≤ i ∧ i.toNat < l.length
    · rw [dif_pos hin]
      simp only [reduceCtorEq, false_iff]
      omega
    · rw [dif_neg hin]
      simp only [true_iff]
      omega

theorem pyGet_ok {α : Type} (l : List α) (i : Int)
    (h : ¬(i < -(l.length : Int) ∨ (l.length : Int) ≤ i)) : ∃ x, pyGet l i = .ok x := by
  unfold pyGet
  by_cases hneg : i < 0
  · simp only [if_pos hneg]
    have hin : 0 ≤ i + (l.length : Int) ∧ (i + (l.length : Int)).toNat < l.length := by omega
    rw [dif_pos hin]
    exact ⟨_, rfl⟩
  · simp only [if_neg hneg]
    have hin : 0 ≤ i ∧ i.toNat < l.length := by omega
    rw [dif_pos hin]
    exact ⟨_, rfl⟩

/-- Claim C5 (amended): `get(index)` (with loads succeeding, matching mask
list length and no transform stages) fails with an IndexError iff the
index is outside `[-length, length)`: indices in `[-length, 0)` wrap
around per Python list-indexing semantics instead of failing. -/
theorem C5_index_error {ι α : Type} (load : ι → Bool → Except PyErr (NpArr α))
    (images : List ι) (masksO : Option (List ι)) (i : Int)
    (hload : ∀ ref g, ∃ a, load ref g = .ok a)
    (hlen : ∀ ms, masksO = some ms → ms.length = images.length) :
    getItem load (⟨images, masksO, none, none, none⟩ : SegDataset ι α) i
        = .error PyErr.indexError
      ↔ (i < -(images.length : Int) ∨ (images.length : Int) ≤ i) := by
  by_cases hr : i < -(images.length : Int) ∨ (images.length : Int) ≤ i
  · simp only [hr, iff_true]
    have hperr : pyGet images i = .error PyErr.indexError := (pyGet_error_iff images i).mpr hr
    simp [getItem, loadImageAndMask, hperr, bind, Except.bind]
  · simp only [hr, iff_false]
    obtain ⟨ref, href⟩ := pyGet_ok images i hr
    obtain ⟨img, himg⟩ := hload ref false
    cases hmo : masksO with
    | none =>
      simp [getItem, loadImageAndMask, applyTransformsD, href, himg, bind, Except.bind]
    | some ms =>
      have hms : ms.length = images.length := hlen ms hmo
      have hr2 : ¬(i < -(ms.length : Int) ∨ (ms.length : Int) ≤ i) := by
        rw [hms]
        exact hr
      obtain ⟨mref, hmref⟩ := pyGet_ok ms i hr2
      obtain ⟨mimg, hmimg⟩ := hload mref true
      simp [getItem, loadImageAndMask, applyTransformsD, href, himg, hmref, hmimg,
        bind, Except.bind]

/-- Counterexample to C5 as stated: on a one-image dataset, `get(-1)` has
its index outside `[0, 1)` yet succeeds (Python negative indexing wraps)
instead of failing with an IndexError. -/
theorem C5_counterexample :
    getItem loadConst ds1 (-1) = .ok (arrC4, MaskVal.sentinel)
    ∧ ¬(0 ≤ (-1 : Int) ∧ (-1 : Int) < (ds1.images.length : Int)) := by
  constructor
  · rfl
  · decide

/-- Witness for C5 at a concrete dataset and out-of-range index. -/
theorem C5_index_error_witness :
    getItem loadConst ds1 5 = .error PyErr.indexError :=
  (C5_index_error loadConst [0] none 5 (fun _ _ => ⟨arrC4, rfl⟩)
    (fun ms h => by simp at h)).mpr (by decide)

/-- Claim C4 (amended): `SamplePatch.transform` on the image half fails
with a ValueError exactly when `patch_size` equals or exceeds an image
spatial dimension (the sampling range `[0, H - patch)` resp.
`[0, W - patch)` is empty); otherwise the offset is sampled from
`[0, H - patch) x [0, W - patch)`; the mask half never samples and never
fails.  It does not silently clip. -/
theorem C4_patch_size_error {α : Type} (patch_size : Nat) (s : SamplePatchState) (a : NpArr α) :
    ((∃ e, SamplePatch.transform patch_size s a ImageMaskTransformMode.Image = .error e)
        ↔ (a.shape.getD 0 0 ≤ patch_size ∨ a.shape.getD 1 0 ≤ patch_size))
    ∧ (a.shape.getD 0 0 ≤ patch_size ∨ a.shape.getD 1 0 ≤ patch_size →
        SamplePatch.transform patch_size s a ImageMaskTransformMode.Image
          = .error PyErr.valueError)
    ∧ (patch_size < a.shape.getD 0 0 → patch_size < a.shape.getD 1 0 →
        ∃ h w : Int, 0 ≤ h ∧ h < (a.shape.getD 0 0 : Int) - patch_size
          ∧ 0 ≤ w ∧ w < (a.shape.getD 1 0 : Int) - patch_size
          ∧ SamplePatch.transform patch_size s a ImageMaskTransformMode.Image
            = .ok (⟨h, w, s.rng.tail.tail⟩,
                sliceHW h.toNat (h.toNat + patch_size) w.toNat (w.toNat + patch_size) a))
    ∧ SamplePatch.transform patch_size s a ImageMaskTransformMode.Mask
        = .ok (s, sliceHW s.coordH.toNat (s.coordH.toNat + patch_size)
            s.coordW.toNat (s.coordW.toNat + patch_size) a) := by
  have herr : a.shape.getD 0 0 ≤ patch_size ∨ a.shape.getD 1 0 ≤ patch_size →
      SamplePatch.transform patch_size s a ImageMaskTransformMode.Image
        = .error PyErr.valueError := by
    intro hor
    by_cases hH : a.shape.getD 0 0 ≤ patch_size
    · have c1 : ((a.shape.getD 0 0 : Int) - (patch_size : Int) ≤ 0) := by omega
      simp only [SamplePatch.transform, npRandint, bind, Except.bind]
      rw [if_pos c1]
    · have hWle : a.shape.getD 1 0 ≤ patch_size := by
        rcases hor with h | h
        · exact absurd h hH
        · exact h
      have c1 : ¬((a.shape.getD 0 0 : Int) - (patch_size : Int) ≤ 0) := by omega
      have e1 : npRandint 0 ((a.shape.getD 0 0 : Int) - (patch_size : Int)) s.rng
          = .ok ((s.rng.headD 0 : Int) % ((a.shape.getD 0 0 : Int) - patch_size), s.rng.tail) := by
        unfold npRandint
        rw [if_neg c1]
        simp
      have c2 : ((a.shape.getD 1 0 : Int) - (patch_size : Int) ≤ 0) := by omega
      have e2 : npRandint 0 ((a.shape.getD 1 0 : Int) - (patch_size : Int)) s.rng.tail
          = .error PyErr.valueError := by
        unfold npRandint
        rw [if_pos c2]
      simp only [SamplePatch.transform, bind, Except.bind, e1, e2]
  refine ⟨⟨?_, fun h => ⟨PyErr.valueError, herr h⟩⟩, herr, fun hH hW => ?_, rfl⟩
  · rintro ⟨e, he⟩
    by_contra hnot
    push_neg at hnot
    rw [samplePatch_image_half patch_size s a hnot.1 hnot.2] at he
    exact absurd he (by simp)
  · exact ⟨(s.rng.headD 0 : Int) % ((a.shape.getD 0 0 : Int) - patch_size),
      (s.rng.tail.headD 0 : Int) % ((a.shape.getD 1 0 : Int) - patch_size),
      Int.emod_nonneg _ (by omega), Int.emod_lt_of_pos _ (by omega),
      Int.emod_nonneg _ (by omega), Int.emod_lt_of_pos _ (by omega),
      samplePatch_image_half patch_size s a hH hW⟩

/-- Counterexample to C4 as stated: on a 2x2 image with `patch_size = 2`
the transform raises ValueError although the patch size does not exceed
either spatial dimension (it only equals them). -/
theorem C4_counterexample :
    SamplePatch.transform 2 ⟨0, 0, []⟩ arrC4 ImageMaskTransformMode.Image
      = .error PyErr.valueError
    ∧ ¬(arrC4.shape.getD 0 0 < 2 ∨ arrC4.shape.getD 1 0 < 2) := by
  constructor
  · rfl
  · decide

/-- Witness for C4 at concrete inputs: the failing boundary case and a
successful in-range sample. -/
theorem C4_patch_size_error_witness :
    SamplePatch.transform 2 ⟨0, 0, ([] : List Nat)⟩ arrC4 ImageMaskTransformMode.Image
      = .error PyErr.valueError
    ∧ ∃ h w : Int, 0 ≤ h ∧ h < (arrC4.shape.getD 0 0 : Int) - (1 : Nat)
      ∧ 0 ≤ w ∧ w < (arrC4.shape.getD 1 0 : Int) - (1 : Nat)
      ∧ SamplePatch.transform 1 ⟨0, 0, ([] : List Nat)⟩ arrC4 ImageMaskTransformMode.Image
        = .ok (⟨h, w, []⟩, sliceHW h.toNat (h.toNat + 1) w.toNat (w.toNat + 1) arrC4) :=
  ⟨(C4_patch_size_error 2 ⟨0, 0, []⟩ arrC4).2.1 (Or.inl (by decide)),
    (C4_patch_size_error 1 ⟨0, 0, []⟩ arrC4).2.2.1 (by decide) (by decide)⟩

/-- Claim C1: for a transformer with `apply_always = false` and a random
draw `r` in `[0,1)`, the `__call__` body applies iff `r ≥ p`; for `p = 0`
it always applies, for `p = 1` it never applies, and when it does not
apply the state, image and mask are all returned unchanged. -/
theorem C1_apply_gate {σ α : Type} (t : Transformer σ α) (s : σ) (r : ℚ)
    (image : NpArr α) (mask : Option (MaskVal α))
    (haa : t.apply_always = false) (hr0 : 0 ≤ r) (hr1 : r < 1) :
    (t.p ≤ r → tcall t s r image mask = applyBody t s image mask)
    ∧ (r < t.p → tcall t s r image mask = .ok (s, image, mask))
    ∧ (t.p = 0 → tcall t s r image mask = applyBody t s image mask)
    ∧ (t.p = 1 → tcall t s r image mask = .ok (s, image, mask)) := by
  unfold tcall
  rw [haa]
  refine ⟨fun h => ?_, fun h => ?_, fun h => ?_, fun h => ?_⟩
  · rw [if_pos (Or.inl h)]
  · rw [if_neg]
    simp only [not_or, not_le]
    exact ⟨h, by simp⟩
  · rw [if_pos (Or.inl (h ▸ hr0))]
  · rw [if_neg]
    simp only [not_or, not_le]
    exact ⟨h ▸ hr1, by simp⟩

/-- Witness for C1 at a concrete transformer, state and draw. -/
theorem C1_apply_gate_witness :
    tcall (RandomVerticalFlipT (α := Nat) 1 false true true) () (1/2) arr23 none
      = .ok ((), arr23, none) :=
  (C1_apply_gate (RandomVerticalFlipT 1 false true true) () (1/2) arr23 none
    rfl (by norm_num) (by norm_num)).2.2.2 rfl

/-- Claim C9: the vertical-flip transform body (`np.flipud`) applied twice
returns an array equal to the original on every valid index, and likewise
for the horizontal-flip transform body (`np.fliplr`): both are involutions. -/
theorem C9_flip_involution {α : Type} (a : NpArr α) :
    (flipud (flipud a)).shape = a.shape
    ∧ (∀ idx, ValidIdx idx a.shape → (flipud (flipud a)).data idx = a.data idx)
    ∧ (fliplr (fliplr a)).shape = a.shape
    ∧ (∀ idx, ValidIdx idx a.shape → (fliplr (fliplr a)).data idx = a.data idx) := by
  refine ⟨rfl, fun idx h => ?_, rfl, fun idx h => ?_⟩
  · cases idx with
    | nil => rfl
    | cons i r =>
      rcases List.forall₂_cons_left_iff.mp h with ⟨y, ys, hi, _, hshape⟩
      simp only [flipud, hshape, List.headD_cons]
      congr 2
      omega
  · cases idx with
    | nil => rfl
    | cons i r =>
      cases r with
      | nil => rfl
      | cons j r2 =>
        rcases List.forall₂_cons_left_iff.mp h with ⟨y0, u, _, hrest, hshape⟩
        rcases List.forall₂_cons_left_iff.mp hrest with ⟨y1, ys, hj, _, hshape2⟩
        subst hshape2
        simp only [fliplr, hshape, List.getD_cons_succ, List.getD_cons_zero]
        congr 3
        omega

/-- Witness for C9 at a concrete array and index. -/
theorem C9_flip_involution_witness :
    (flipud (flipud arr23)).data [1, 2] = arr23.data [1, 2]
    ∧ (fliplr (fliplr arr23)).data [1, 2] = arr23.data [1, 2] :=
  ⟨(C9_flip_involution arr23).2.1 [1, 2]
      (List.Forall₂.cons (by decide) (List.Forall₂.cons (by decide) List.Forall₂.nil)),
    (C9_flip_involution arr23).2.2.2 [1, 2]
      (List.Forall₂.cons (by decide) (List.Forall₂.cons (by decide) List.Forall₂.nil))⟩

/-- Claim C6: `Resize(S)` is always applied (for every draw `r` and every
`p`, since the constructor forces `apply_always`), the image half is
resized with `INTER_LINEAR`, the mask half (when dense) with
`INTER_NEAREST`, the sentinel passes through, and both outputs have
spatial dimensions exactly `S x S`. -/
theorem C6_resize {α : Type} (size : Nat) (p r : ℚ) (s : Unit) (image m : NpArr α) :
    tcall (ResizeT size p true true) s r image (some (MaskVal.dense m))
      = .ok ((), cv2resize Interp.INTER_LINEAR size image,
          some (MaskVal.dense (cv2resize Interp.INTER_NEAREST size m)))
    ∧ tcall (ResizeT size p true true) s r image (some MaskVal.sentinel)
      = .ok ((), cv2resize Interp.INTER_LINEAR size image, some MaskVal.sentinel)
    ∧ (cv2resize Interp.INTER_LINEAR size image).shape = size :: size :: image.shape.drop 2
    ∧ (cv2resize Interp.INTER_NEAREST size m).shape = size :: size :: m.shape.drop 2 := by
  refine ⟨?_, ?_, rfl, rfl⟩
  · rw [tcall_applies _ _ _ _ _ (Or.inr rfl)]
    exact applyBody_dense _ _ _ _ rfl rfl rfl rfl
  · rw [tcall_applies _ _ _ _ _ (Or.inr rfl)]
    rfl

/-- Claim C7: `Squarify.transform` on an array of shape `(100, 60, 3)`
crops the longer spatial side by 20 before and 20 after, yielding shape
`(60, 60, 3)` with element `(i, j, c)` taken from source element
`(i + 20, j, c)`. -/
theorem C7_squarify {α : Type} (a : NpArr α) (hshape : a.shape = [100, 60, 3]) :
    squarifyCrops a.shape = [(20, 20), (0, 0), (0, 0)]
    ∧ (Squarify.transform a).shape = [60, 60, 3]
    ∧ ∀ i j c : Nat, (Squarify.transform a).data [i, j, c] = a.data [i + 20, j, c] := by
  have h1 : squarifyCrops a.shape = [(20, 20), (0, 0), (0, 0)] := by
    rw [hshape]
    decide
  refine ⟨h1, ?_, fun i j c => ?_⟩
  · show ((a.shape.zip (squarifyCrops a.shape)).map fun sc => sc.1 - sc.2.2 - sc.2.1)
      = [60, 60, 3]
    rw [hshape]
    decide
  · show a.data (List.zipWith (fun i c => i + c.1) [i, j, c] (squarifyCrops a.shape))
      = a.data [i + 20, j, c]
    rw [h1]
    simp

/-- Witness for C7 at a concrete array and index. -/
theorem C7_squarify_witness :
    squarifyCrops arr100.shape = [(20, 20), (0, 0), (0, 0)]
    ∧ (Squarify.transform arr100).shape = [60, 60, 3]
    ∧ (Squarify.transform arr100).data [5, 7, 2] = arr100.data [25, 7, 2] :=
  ⟨(C7_squarify arr100 rfl).1, (C7_squarify arr100 rfl).2.1,
    (C7_squarify arr100 rfl).2.2 5 7 2⟩

/-- Claim C8: `Normalize` with `divide = True`, zero mean and unit std
returns exactly the input divided by 255 (shape unchanged), and
`ToTensor` with `transpose = True` (other flags off) maps an `(H, W, C)`
array to the `(C, H, W)` array with element `(c, h, w)` equal to input
element `(h, w, c)`. -/
theorem C8_normalize_totensor :
    (∀ (a : NpArr ℚ) (mean std : List ℚ) (H W C : Nat), a.shape = [H, W, C] →
      (∀ c < C, bcast mean c = 0) → (∀ c < C, bcast std c = 1) →
      (Normalize.call ⟨mean, std, true⟩ a).shape = a.shape
      ∧ ∀ idx, ValidIdx idx a.shape →
        (Normalize.call ⟨mean, std, true⟩ a).data idx = a.data idx / 255)
    ∧ (∀ (a : NpArr ℚ) (H W C : Nat), a.shape = [H, W, C] →
      (ToTensor.call ⟨false, true, false, false⟩ a).shape = [C, H, W]
      ∧ ∀ c h w : Nat,
        (ToTensor.call ⟨false, true, false, false⟩ a).data [c, h, w] = a.data [h, w, c]) := by
  constructor
  · intro a mean std H W C hshape hm hs
    refine ⟨rfl, fun idx hv => ?_⟩
    rw [hshape] at hv
    rcases List.forall₂_cons_right_iff.mp hv with ⟨i, u1, hi, hv1, rfl⟩
    rcases List.forall₂_cons_right_iff.mp hv1 with ⟨j, u2, hj, hv2, rfl⟩
    rcases List.forall₂_cons_right_iff.mp hv2 with ⟨c, u3, hc, hv3, rfl⟩
    obtain rfl : u3 = [] := List.forall₂_nil_right_iff.mp hv3
    show (a.data [i, j, c] / 255 - bcast mean c) / bcast std c = a.data [i, j, c] / 255
    rw [hm c hc, hs c hc]
    simp
  · intro a H W C hshape
    refine ⟨?_, fun c h w => rfl⟩
    simp [ToTensor.call, npTranspose201, hshape]

/-- Witness for C8 at a concrete array, mean and std. -/
theorem C8_normalize_totensor_witness :
    ((Normalize.call ⟨[0, 0, 0], [1, 1, 1], true⟩ arr100).shape = arr100.shape
      ∧ (Normalize.call ⟨[0, 0, 0], [1, 1, 1], true⟩ arr100).data [1, 2, 0]
        = arr100.data [1, 2, 0] / 255)
    ∧ ((ToTensor.call ⟨false, true, false, false⟩ arr100).shape = [3, 100, 60]
      ∧ ∀ c h w : Nat,
        (ToTensor.call ⟨false, true, false, false⟩ arr100).data [c, h, w]
          = arr100.data [h, w, c]) :=
  ⟨⟨(C8_normalize_totensor.1 arr100 [0, 0, 0] [1, 1, 1] 100 60 3 rfl
        (by decide) (by decide)).1,
    (C8_normalize_totensor.1 arr100 [0, 0, 0] [1, 1, 1] 100 60 3 rfl
        (by decide) (by decide)).2 [1, 2, 0]
      (List.Forall₂.cons (by decide) (List.Forall₂.cons (by decide)
        (List.Forall₂.cons (by decide) List.Forall₂.nil)))⟩,
    C8_normalize_totensor.2 arr100 100 60 3 rfl⟩

/-- Claim C10: constructing `MakeBorder` with a scalar border size `s`
yields exactly the same instance as with the tuple `(s, s, s, s)`; the
instance has `apply_mask = False` and `apply_always = True`; every call
(whatever the draw and the mask) reflect-pads the image with `s` on each
side and returns the mask untouched; the padded shape adds the per-side
sizes to the spatial dimensions. -/
theorem C10_make_border {α : Type} (s : Nat) (p : ℚ) (ai : Bool) :
    (MakeBorderT (α := α) (.inl s) p ai = MakeBorderT (.inr (s, s, s, s)) p ai)
    ∧ (MakeBorderT (α := α) (.inl s) p ai).apply_mask = false
    ∧ (MakeBorderT (α := α) (.inl s) p ai).apply_always = true
    ∧ (∀ (r : ℚ) (st : Unit) (image : NpArr α) (mask : Option (MaskVal α)),
        tcall (MakeBorderT (.inl s) p true) st r image mask
          = .ok ((), copyMakeBorderReflect s s s s image, mask))
    ∧ (∀ image : NpArr α,
        (copyMakeBorderReflect s s s s image).shape
          = (s + image.shape.getD 0 0 + s) :: (s + image.shape.getD 1 0 + s)
            :: image.shape.drop 2) := by
  refine ⟨rfl, rfl, rfl, ?_, fun image => rfl⟩
  intro r st image mask
  rw [tcall_applies _ _ _ _ _ (Or.inr rfl)]
  cases mask with
  | none => rfl
  | some mv => cases mv <;> rfl
